import Mathlib

/-!
Verification development for the `fynesse` ingestion pipeline
(`src/fynesse/access.py`), a shallow embedding of the module in Lean 4.

External effects (HTTP, the filesystem, the MySQL server) are modelled by
explicit oracles and explicit state:

* an HTTP probe of a URL yields an `HttpResult` (a response with a status
  code, a raised `HTTPError` carrying a status code, or a raised
  transport-level error such as a DNS failure);
* the local filesystem of the price-paid flow is the list of downloaded
  part files currently on disk, a file being identified by its
  `(year, part)` pair;
* functions that can raise return `Option` / `Except`, a `none` / `.error`
  meaning the Python exception propagates to the caller;
* each modelled operation also returns the list of observable events it
  performed, in order, so that claims about "what ran, and in which order"
  are statements about the returned trace.
-/

namespace Fynesse

/-! ### HTTP prober (`is_site_up`) -/

/-- Outcome of `urllib.request.urlopen(url)`: a response object whose
`getcode()` is `code`; a raised `urllib.error.HTTPError` with HTTP status
`code` (urllib raises `HTTPError` for every HTTP error status); or a
raised transport-level error (DNS failure, timeout, connection refused),
which is a `URLError` or `OSError` but not an `HTTPError`. -/
inductive HttpResult : Type
  | ok (code : Nat)
  | httpError (code : Nat)
  | transportError
deriving DecidableEq, Repr

/-- `is_site_up` (access.py lines 17-22): returns whether
`urlopen(url).getcode() == 200`; a raised `HTTPError` is caught and yields
`False`; any other exception propagates (modelled as `none`). -/
def is_site_up : HttpResult → Option Bool
  | .ok code => some (code == 200)
  | .httpError _ => some false
  | .transportError => none

/-! ### Price-paid flow (`load_pp_data_into_table` and helpers) -/

/-- A price-paid part file on disk, identified by its `(year, part)` pair
(wget downloads `pp-{year}-part{part}.csv` into the working directory). -/
abbrev PPFile := Nat × Nat

/-- The local working directory for the price-paid flow: the part files
currently present on disk. -/
abbrev FS := List PPFile

/-- The environment of the price-paid flow: what the network and the
database do. `http year part` is the outcome of probing the part's URL;
`loadOk year part` tells whether the bulk `LOAD DATA` of the downloaded
file succeeds or raises. -/
structure PPEnv : Type where
  http : Nat → Nat → HttpResult
  loadOk : Nat → Nat → Bool

/-- Errors that can propagate out of the price-paid flow. `.fuel` is a
modelling artifact only: it marks that the supplied loop fuel ran out
before the `while` loop of the source terminated. -/
inductive PPErr : Type
  | transport
  | loadFailed
  | fuel
deriving DecidableEq, Repr

/-- Observable events of the price-paid flow, in program order:
a probe of `URL(year, part)` with its boolean result, a download of the
part file, a bulk-load attempt with its result, a deletion of the local
file. -/
inductive PPEvent : Type
  | probe (year part : Nat) (up : Bool)
  | fetch (year part : Nat)
  | load (year part : Nat) (ok : Bool)
  | removeFile (year part : Nat)
deriving DecidableEq, Repr

/-- `Database._load_pp_data_part_into_table` (access.py lines 207-237):
probe the part's URL with `is_site_up`; if the probe raises, the exception
propagates; if the URL is down, return `False` without fetching; otherwise
download the file, then `try` to bulk-load it and `finally` delete the
local file, re-raising a load failure after the deletion; on success
return `True`. -/
def load_pp_data_part_into_table (env : PPEnv) (year part : Nat) (fs : FS) :
    Except PPErr Bool × List PPEvent × FS :=
  match is_site_up (env.http year part) with
  | none => (.error .transport, [], fs)
  | some false => (.ok false, [.probe year part false], fs)
  | some true =>
    let fs1 : FS := (year, part) :: fs
    if env.loadOk year part then
      (.ok true,
       [.probe year part true, .fetch year part, .load year part true,
        .removeFile year part],
       fs1.erase (year, part))
    else
      (.error .loadFailed,
       [.probe year part true, .fetch year part, .load year part false,
        .removeFile year part],
       fs1.erase (year, part))

/-- The per-year discovery loop of `Database.load_pp_data_into_table`
(access.py lines 169-172): `part = 1; while part step returns True:
part += 1`. The loop of the source is unbounded, so the embedding carries
explicit fuel; exhausting it yields the artificial `.error .fuel`. -/
def load_pp_year (env : PPEnv) (year : Nat) :
    Nat → Nat → FS → Except PPErr Unit × List PPEvent × FS
  | _, 0, fs => (.error .fuel, [], fs)
  | part, fuel + 1, fs =>
    match load_pp_data_part_into_table env year part fs with
    | (.ok true, evs, fs1) =>
      let r := load_pp_year env year (part + 1) fuel fs1
      (r.1, evs ++ r.2.1, r.2.2)
    | (.ok false, evs, fs1) => (.ok (), evs, fs1)
    | (.error e, evs, fs1) => (.error e, evs, fs1)

/-- The year driver of `Database.load_pp_data_into_table` (access.py lines
165-172), generalised over the list of years: run each year's discovery
loop in order; an exception raised by any year aborts the remaining
years. -/
def run_pp_years (env : PPEnv) (fuel : Nat) :
    List Nat → FS → Except PPErr Unit × List PPEvent × FS
  | [], fs => (.ok (), [], fs)
  | y :: ys, fs =>
    match load_pp_year env y 1 fuel fs with
    | (.ok (), evs, fs1) =>
      let r := run_pp_years env fuel ys fs1
      (r.1, evs ++ r.2.1, r.2.2)
    | (.error e, evs, fs1) => (.error e, evs, fs1)

/-- `Database.load_pp_data_into_table` (access.py lines 165-172):
`for year in range(1995, 2022)` — the years 1995..2021 — run the per-year
discovery loop. -/
def load_pp_data_into_table (env : PPEnv) (fuel : Nat) (fs : FS) :
    Except PPErr Unit × List PPEvent × FS :=
  run_pp_years env fuel (List.range' 1995 27) fs

/-- The four events of one successful fetch+load cycle for `(year, part)`. -/
def cycleEvents (year part : Nat) : List PPEvent :=
  [.probe year part true, .fetch year part, .load year part true,
   .removeFile year part]

/-- The full event trace of a year whose parts `1..P` are up and load
successfully and whose part `P+1` is down: `P` fetch+load cycles in
increasing part order, then the one failing probe of part `P+1`. -/
def yearEvents (year P : Nat) : List PPEvent :=
  (List.range' 1 P).flatMap (cycleEvents year) ++ [.probe year (P + 1) false]

/-- The environment behaves for year `y` as the claims' `(Y, P)` pattern:
every part `1..P` probes up and bulk-loads successfully, and part `P+1`
probes down. Stated with list-bounded quantifiers so that concrete
instances are decidable. -/
def yearSucceeds (env : PPEnv) (y P : Nat) : Prop :=
  (∀ p ∈ List.range' 1 P,
      is_site_up (env.http y p) = some true ∧ env.loadOk y p = true) ∧
  is_site_up (env.http y (P + 1)) = some false

instance (env : PPEnv) (y P : Nat) : Decidable (yearSucceeds env y P) :=
  inferInstanceAs (Decidable ((∀ p ∈ List.range' 1 P,
      is_site_up (env.http y p) = some true ∧ env.loadOk y p = true) ∧
    is_site_up (env.http y (P + 1)) = some false))

/-- Recognises a fetch (download) event. -/
def isFetch : PPEvent → Bool
  | .fetch _ _ => true
  | _ => false

/-- The environment makes year `y` fail at part `pstar`: parts
`1..pstar-1` probe up and load, part `pstar` probes up but its bulk load
raises. -/
def yearFailsAt (env : PPEnv) (y pstar : Nat) : Prop :=
  (∀ p ∈ List.range' 1 (pstar - 1),
      is_site_up (env.http y p) = some true ∧ env.loadOk y p = true) ∧
  is_site_up (env.http y pstar) = some true ∧ env.loadOk y pstar = false

instance (env : PPEnv) (y pstar : Nat) : Decidable (yearFailsAt env y pstar) :=
  inferInstanceAs (Decidable ((∀ p ∈ List.range' 1 (pstar - 1),
      is_site_up (env.http y p) = some true ∧ env.loadOk y p = true) ∧
    is_site_up (env.http y pstar) = some true ∧ env.loadOk y pstar = false))

/-- The event trace of a year that fails at part `pstar`: the completed
cycles `1..pstar-1`, then the probe, fetch, failing load and file deletion
of part `pstar` — and nothing after. -/
def yearFailEvents (y pstar : Nat) : List PPEvent :=
  (List.range' 1 (pstar - 1)).flatMap (cycleEvents y) ++
    [.probe y pstar true, .fetch y pstar, .load y pstar false,
     .removeFile y pstar]

/-- Concrete environment: every year has exactly parts 1 and 2 (they
probe 200 OK and their loads succeed) and part 3 answers 404. -/
def envTwoParts : PPEnv :=
  { http := fun _ p => if p ≤ 2 then .ok 200 else .httpError 404,
    loadOk := fun _ _ => true }

/-- Concrete environment: as `envTwoParts`, except that the bulk load of
year 1996 part 2 raises. -/
def envFail1996 : PPEnv :=
  { http := fun _ p => if p ≤ 2 then .ok 200 else .httpError 404,
    loadOk := fun y p => !(y == 1996 && p == 2) }

/-- Concrete environment: every probe answers 503 Service Unavailable. -/
def envAll503 : PPEnv :=
  { http := fun _ _ => .httpError 503,
    loadOk := fun _ _ => true }

/-! ### Postcode archive flow (`load_postcode_data_into_table`) -/

/-- A directory entry of the expanded archive: a file with a name, or a
subdirectory with its own entries (archives may nest arbitrarily). -/
inductive Entry : Type
  | file (name : String)
  | dir (name : String) (entries : List Entry)

/-- Python's `str.endswith(suffix)`: `suffix` is a suffix of the string. -/
def endswith (s suffix : String) : Bool :=
  suffix.data.isSuffixOf s.data

/-- The file names produced by `os.walk` over an expanded directory tree:
every file at every nesting depth. (The source filters on the file's
name, so the embedding tracks names.) -/
def walkFiles : List Entry → List String
  | [] => []
  | .file n :: es => n :: walkFiles es
  | .dir _ sub :: es => walkFiles sub ++ walkFiles es

/-- Errors that can propagate out of the postcode flow. -/
inductive PcErr : Type
  | extractFailed
  | loadFailed
deriving DecidableEq, Repr

/-- Observable events of the postcode flow, in program order. -/
inductive PcEvent : Type
  | download
  | extract
  | load (file : String) (ok : Bool)
  | removeZip
  | rmtree
deriving DecidableEq, Repr

/-- The environment of the postcode flow: the contents the archive
expands to, whether `ZipFile` / `extractall` succeeds, which directory
tree exists when extraction raises midway, and whether the bulk load of a
given CSV file succeeds. -/
structure PcEnv : Type where
  tree : List Entry
  extractOk : Bool
  scratchOnFail : Option (List Entry)
  loadOk : String → Bool

/-- Local filesystem state of the postcode flow: whether the downloaded
archive is on disk, and the scratch directory `postcode_unzipped` (absent
or holding a tree). -/
structure PcState : Type where
  zipPresent : Bool
  scratch : Option (List Entry)

/-- The `for root, dirs, files in os.walk(...)` loop body (access.py lines
262-266): for every walked file name, if it ends with `"csv"` load it;
the first load failure propagates and stops the loop. -/
def runPcLoads (loadOk : String → Bool) :
    List String → List PcEvent × Except PcErr Unit
  | [] => ([], .ok ())
  | f :: rest =>
    if endswith f "csv" then
      if loadOk f then
        let r := runPcLoads loadOk rest
        (.load f true :: r.1, r.2)
      else ([.load f false], .error .loadFailed)
    else runPcLoads loadOk rest

/-- The `finally` block of `load_postcode_data_into_table` (access.py
lines 267-273): `os.remove(filename)`, then
`if os.path.isdir(unzip_dir): shutil.rmtree(unzip_dir)`. -/
def pcFinally (s : PcState) : List PcEvent × PcState :=
  let s1 : PcState := { s with zipPresent := false }
  match s1.scratch with
  | some _ => ([.removeZip, .rmtree], { s1 with scratch := none })
  | none => ([.removeZip], s1)

/-- `Database.load_postcode_data_into_table` (access.py lines 239-273):
download the archive; `try`: expand it into the scratch directory and
load every walked file whose name ends with `"csv"`; `finally`: delete
the archive and, if present, the scratch directory tree. -/
def load_postcode_data_into_table (env : PcEnv) :
    Except PcErr Unit × List PcEvent × PcState :=
  let s0 : PcState := { zipPresent := true, scratch := none }
  let body : Except PcErr Unit × List PcEvent × PcState :=
    if env.extractOk then
      let r := runPcLoads env.loadOk (walkFiles env.tree)
      (r.2, .extract :: r.1, { s0 with scratch := some env.tree })
    else
      (.error .extractFailed, [], { s0 with scratch := env.scratchOnFail })
  let fin := pcFinally body.2.2
  (body.1, .download :: body.2.1 ++ fin.1, fin.2)

/-- The files the postcode flow actually loaded (read off its trace). -/
def loadedFiles (r : Except PcErr Unit × List PcEvent × PcState) :
    List String :=
  r.2.1.filterMap (fun e => match e with | .load f _ => some f | _ => none)

/-- Concrete archive contents: two CSV data files at different nesting
depths and one unrelated file. -/
def pcEnvNested : PcEnv :=
  { tree := [.dir "data" [.file "a.csv", .dir "deep" [.file "b.csv"]],
             .file "readme.txt"],
    extractOk := true,
    scratchOnFail := none,
    loadOk := fun _ => true }

/-! ### Relational store: schema manager, bulk loader, counter -/

/-- A column declaration of a `CREATE TABLE` statement: its name, whether
it is `NOT NULL`, and whether it is `AUTO_INCREMENT`. -/
structure Column : Type where
  name : String
  notNull : Bool
  autoIncrement : Bool
deriving DecidableEq, Repr

/-- The state of one table: its declared columns, primary-key column,
secondary indexes as (index name, indexed column) pairs, and rows. A row
is the list of its field values. -/
structure TableState : Type where
  columns : List Column
  primaryKey : String
  indexes : List (String × String)
  rows : List (List String)
deriving DecidableEq, Repr

/-- The logical database `ads_data_jo429`: its two tables, each possibly
absent. -/
structure DBState : Type where
  pp_data : Option TableState
  postcode_data : Option TableState
deriving DecidableEq, Repr

/-- `DROP TABLE IF EXISTS` on one table slot. -/
def dropTableIfExists (_ : Option TableState) : Option TableState := none

/-- `CREATE TABLE IF NOT EXISTS` with the given columns and primary key:
a no-op when the table exists, otherwise a fresh empty table with no
indexes yet. -/
def createTableIfNotExists (cols : List Column) (pk : String) :
    Option TableState → Option TableState
  | some t => some t
  | none => some { columns := cols, primaryKey := pk, indexes := [], rows := [] }

/-- `CREATE INDEX name ON table (column)`. -/
def createIndex (ix : String × String) :
    Option TableState → Option TableState
  | some t => some { t with indexes := t.indexes ++ [ix] }
  | none => none

/-- The columns of `pp_data` (access.py lines 90-110). -/
def ppColumns : List Column :=
  [⟨"transaction_unique_identifier", true, false⟩,
   ⟨"price", true, false⟩,
   ⟨"date_of_transfer", true, false⟩,
   ⟨"postcode", true, false⟩,
   ⟨"property_type", true, false⟩,
   ⟨"new_build_flag", true, false⟩,
   ⟨"tenure_type", true, false⟩,
   ⟨"primary_addressable_object_name", true, false⟩,
   ⟨"secondary_addressable_object_name", true, false⟩,
   ⟨"street", true, false⟩,
   ⟨"locality", true, false⟩,
   ⟨"town_city", true, false⟩,
   ⟨"district", true, false⟩,
   ⟨"county", true, false⟩,
   ⟨"ppd_category_type", true, false⟩,
   ⟨"record_status", true, false⟩,
   ⟨"db_id", true, true⟩]

/-- The two secondary indexes of `pp_data` (access.py lines 112-118). -/
def ppIndexes : List (String × String) :=
  [("pp.postcode", "postcode"), ("pp.date", "date_of_transfer")]

/-- The columns of `postcode_data` (access.py lines 134-155). -/
def postcodeColumns : List Column :=
  [⟨"postcode", true, false⟩,
   ⟨"status", true, false⟩,
   ⟨"usertype", true, false⟩,
   ⟨"easting", false, false⟩,
   ⟨"northing", false, false⟩,
   ⟨"positional_quality_indicator", true, false⟩,
   ⟨"country", true, false⟩,
   ⟨"lattitude", true, false⟩,
   ⟨"longitude", true, false⟩,
   ⟨"postcode_no_space", true, false⟩,
   ⟨"postcode_fixed_width_seven", true, false⟩,
   ⟨"postcode_fixed_width_eight", true, false⟩,
   ⟨"postcode_area", true, false⟩,
   ⟨"postcode_district", true, false⟩,
   ⟨"postcode_sector", true, false⟩,
   ⟨"outcode", true, false⟩,
   ⟨"incode", true, false⟩,
   ⟨"db_id", true, true⟩]

/-- The secondary index of `postcode_data` (access.py lines 157-159). -/
def postcodeIndexes : List (String × String) :=
  [("po.postcode", "postcode")]

/-- `Database.remake_pp_data_table` (access.py lines 75-121): one cursor
executes `DROP TABLE IF EXISTS pp_data`; a second cursor executes the
`CREATE TABLE IF NOT EXISTS` and the two `CREATE INDEX` statements. -/
def remake_pp_data_table (db : DBState) : DBState :=
  let db1 : DBState := { db with pp_data := dropTableIfExists db.pp_data }
  let created := createTableIfNotExists ppColumns "db_id" db1.pp_data
  let indexed1 := createIndex ("pp.postcode", "postcode") created
  let indexed2 := createIndex ("pp.date", "date_of_transfer") indexed1
  { db1 with pp_data := indexed2 }

/-- `Database.remake_postcode_data_table` (access.py lines 123-163). -/
def remake_postcode_data_table (db : DBState) : DBState :=
  let db1 : DBState := { db with postcode_data := dropTableIfExists db.postcode_data }
  let created := createTableIfNotExists postcodeColumns "db_id" db1.postcode_data
  let indexed := createIndex ("po.postcode", "postcode") created
  { db1 with postcode_data := indexed }

/-- The table `remake_pp_data_table` leaves behind. -/
def ppFreshTable : TableState :=
  { columns := ppColumns, primaryKey := "db_id", indexes := ppIndexes,
    rows := [] }

/-- The table `remake_postcode_data_table` leaves behind. -/
def postcodeFreshTable : TableState :=
  { columns := postcodeColumns, primaryKey := "db_id",
    indexes := postcodeIndexes, rows := [] }

/-- Errors of the modelled SQL statements. -/
inductive DbErr : Type
  | missingTable
deriving DecidableEq, Repr

/-- `Database._insert_pp_csv_at_once` (access.py lines 193-205):
`LOAD DATA LOCAL INFILE` appends the file's parsed rows to `pp_data`;
it raises if the table is absent. -/
def insert_pp_csv_at_once (fileRows : List (List String)) (db : DBState) :
    Except DbErr DBState :=
  match db.pp_data with
  | none => .error .missingTable
  | some t =>
    .ok { db with pp_data := some { t with rows := t.rows ++ fileRows } }

/-- `Database._count_table` (access.py lines 288-291):
`SELECT COUNT(*) FROM table`. -/
def count_table : Option TableState → Except DbErr Nat
  | none => .error .missingTable
  | some t => .ok t.rows.length

/-- `Database.count_pp_data` (access.py lines 293-294). -/
def count_pp_data (db : DBState) : Except DbErr Nat :=
  count_table db.pp_data

/-- `Database.count_postcode_data` (access.py lines 296-297). -/
def count_postcode_data (db : DBState) : Except DbErr Nat :=
  count_table db.postcode_data

/-- A database whose `pp_data` table is freshly (re)made and whose
`postcode_data` table is absent. -/
def dbFreshPP : DBState :=
  { pp_data := some ppFreshTable, postcode_data := none }

/-- A three-row well-formed price-paid file. -/
def ppRows3 : List (List String) :=
  [["A-1", "100000", "1995-01-01", "CB1 1AA", "F", "N", "L",
    "1", "", "HIGH ST", "", "CAMBRIDGE", "CAMBRIDGE", "CAMBRIDGESHIRE",
    "A", "A"],
   ["A-2", "200000", "1996-02-02", "CB2 2BB", "D", "Y", "F",
    "2", "", "MILL RD", "", "CAMBRIDGE", "CAMBRIDGE", "CAMBRIDGESHIRE",
    "A", "A"],
   ["A-3", "300000", "1997-03-03", "CB3 3CC", "T", "N", "F",
    "3", "", "KINGS PDE", "", "CAMBRIDGE", "CAMBRIDGE", "CAMBRIDGESHIRE",
    "A", "A"]]

/-! ### Connection / cursor management (`make_cursor`) -/

/-- Outcome of the first `mysql.connector.connect(..., database=...)`
attempt of a unit of work: it succeeds, or it raises
`ProgrammingError` because the logical database does not exist yet. -/
inductive ConnectOutcome : Type
  | ok
  | programmingError
deriving DecidableEq, Repr

/-- Observable connection-level events of one unit of work:
opening a server connection (with or without selecting the database),
`CREATE DATABASE`, the caller's `with`-body running with a cursor,
`commit`, and closing the connection. -/
inductive ConnEvent : Type
  | connect (withDb : Bool)
  | createDb
  | body
  | commit
  | close
deriving DecidableEq, Repr

/-- What `with database.make_cursor(...) as cursor:` hands the caller:
a cursor (the generator yielded), or the `RuntimeError` contextlib raises
in `__enter__` when the generator returned without yielding. -/
inductive EnterResult : Type
  | cursor
  | runtimeErrorNoYield
deriving DecidableEq, Repr

/-- `Database.make_cursor` (access.py lines 37-73), a `@contextmanager`
generator, run against a caller's `with`-body. On a successful connect it
yields the cursor, the body runs, then it commits (unless
`commit_after=False`) and closes the connection. On `ProgrammingError` it
connects without selecting a database, runs `_make_database`
(`CREATE DATABASE`, access.py lines 31-35), closes that connection — and
then executes `return self.make_cursor()`: a `return` inside a generator
ends the generator without yielding (the fresh context manager object is
discarded into `StopIteration.value`), so contextlib's `__enter__` raises
`RuntimeError` and the caller's body never runs. -/
def make_cursor (outcome : ConnectOutcome) (commit_after : Bool) :
    EnterResult × List ConnEvent :=
  match outcome with
  | .ok =>
    (.cursor,
     [.connect true, .body] ++ (if commit_after then [.commit] else []) ++
       [.close])
  | .programmingError =>
    (.runtimeErrorNoYield, [.connect false, .createDb, .close])

/-- The connection events of a single bulk file load
(`_insert_pp_csv_at_once` / `_load_postcode_csv_file_into_table`, which
use `make_cursor()` with the default `commit_after=True`). -/
def load_file_conn_trace : List ConnEvent := (make_cursor .ok true).2

/-- The connection events of a count query (`_count_table`, which uses
`make_cursor(False)`). -/
def count_conn_trace : List ConnEvent := (make_cursor .ok false).2

/-- The connection events of a schema remake (`remake_pp_data_table` /
`remake_postcode_data_table`): one committing cursor for the `DROP`, one
non-committing cursor for the `CREATE` statements. -/
def remake_conn_trace : List ConnEvent :=
  (make_cursor .ok true).2 ++ (make_cursor .ok false).2

end Fynesse

namespace Fynesse

/-! ### Theorems -/

theorem erase_cons_self (f : PPFile) (fs : FS) : (f :: fs).erase f = fs := by
  simp [List.erase_cons_head]

theorem load_pp_year_spec (env : PPEnv) (y P : Nat)
    (hup : ∀ p ∈ List.range' 1 P,
      is_site_up (env.http y p) = some true ∧ env.loadOk y p = true)
    (hdown : is_site_up (env.http y (P + 1)) = some false) :
    ∀ s fuel fs, 1 ≤ s → s ≤ P + 1 → P + 2 - s ≤ fuel →
      load_pp_year env y s fuel fs =
        (.ok (), (List.range' s (P + 1 - s)).flatMap (cycleEvents y) ++
          [.probe y (P + 1) false], fs) := by
  intro s fuel
  induction fuel generalizing s with
  | zero => intro fs h1 h2 h3; omega
  | succ n ih =>
    intro fs h1 h2 _
    rcases Nat.lt_or_ge s (P + 1) with hlt | hge
    · have hmem : s ∈ List.range' 1 P := by
        rw [List.mem_range'_1]
        exact ⟨h1, by omega⟩
      obtain ⟨hu, hl⟩ := hup s hmem
      have hstep : load_pp_data_part_into_table env y s fs =
          (.ok true, cycleEvents y s, fs) := by
        unfold load_pp_data_part_into_table
        rw [hu]
        simp [hl, cycleEvents, erase_cons_self]
      have hrec := ih (s + 1) fs (by omega) (by omega) (by omega)
      unfold load_pp_year
      rw [hstep]
      simp only [hrec]
      have hrange : List.range' s (P + 1 - s) =
          s :: List.range' (s + 1) (P - s) := by
        have : P + 1 - s = (P - s) + 1 := by omega
        rw [this, List.range'_succ]
      have hPs : P + 1 - (s + 1) = P - s := by omega
      rw [hrange, hPs]
      simp [cycleEvents]
    · have hs : s = P + 1 := by omega
      subst hs
      unfold load_pp_year
      unfold load_pp_data_part_into_table
      rw [hdown]
      simp

theorem run_pp_years_ok (env : PPEnv) (P : Nat → Nat) (fuel : Nat) :
    ∀ ys fs, (∀ y ∈ ys, yearSucceeds env y (P y) ∧ P y + 1 ≤ fuel) →
      run_pp_years env fuel ys fs =
        (.ok (), ys.flatMap (fun y => yearEvents y (P y)), fs) := by
  intro ys
  induction ys with
  | nil => intro fs _; rfl
  | cons y ys ih =>
    intro fs h
    obtain ⟨⟨hup, hdown⟩, hfuel⟩ := h y (List.mem_cons_self y ys)
    have hyear := load_pp_year_spec env y (P y) hup hdown 1 fuel fs
      (le_refl 1) (by omega) (by omega)
    unfold run_pp_years
    rw [hyear]
    simp only [Nat.add_sub_cancel] at hyear ⊢
    rw [ih fs (fun z hz => h z (List.mem_cons_of_mem y hz))]
    simp [yearEvents]

theorem yearEvents_fetch_count (y : Nat) :
    ∀ n s, (((List.range' s n).flatMap (cycleEvents y)).filter isFetch).length = n := by
  intro n
  induction n with
  | zero => intro s; rfl
  | succ m ih =>
    intro s
    rw [List.range'_succ]
    simp [cycleEvents, isFetch, ih (s + 1)]

/-- C1: For every year Y in the iterated range 1995..2021, the discovery
loop starts at part 1 and probes parts in increasing order; if the probe
is true for parts `1..P` and false for part `P+1`, exactly `P` fetch+load
cycles run for year Y in increasing part order, the only probes of year Y
are of parts `1..P+1`, nothing is attempted beyond part `P+1`, and if
part 1 probes false the year performs zero fetch/load operations (its
trace `yearEvents y 0` is just the failing probe of part 1). -/
theorem pp_discovery_trace (env : PPEnv) (P : Nat → Nat) (fuel : Nat) (fs : FS)
    (h : ∀ y ∈ List.range' 1995 27, yearSucceeds env y (P y) ∧ P y + 1 ≤ fuel) :
    load_pp_data_into_table env fuel fs =
      (.ok (), (List.range' 1995 27).flatMap (fun y => yearEvents y (P y)), fs)
    ∧ (∀ y n, ((yearEvents y n).filter isFetch).length = n)
    ∧ (∀ y, yearEvents y 0 = [.probe y 1 false]) := by
  refine ⟨run_pp_years_ok env P fuel (List.range' 1995 27) fs h, ?_, ?_⟩
  · intro y n
    simp [yearEvents, List.filter_append, isFetch, yearEvents_fetch_count y n 1]
  · intro y
    rfl

/-- Witness for C1: with two parts per year everywhere, the full
1995..2021 run performs exactly the expected trace. -/
theorem pp_discovery_trace_witness :
    (∀ y ∈ List.range' 1995 27, yearSucceeds envTwoParts y 2 ∧ 2 + 1 ≤ 3) ∧
    load_pp_data_into_table envTwoParts 3 [] =
      (.ok (), (List.range' 1995 27).flatMap (fun y => yearEvents y 2), []) :=
  ⟨by decide, (pp_discovery_trace envTwoParts (fun _ => 2) 3 [] (by decide)).1⟩

theorem load_pp_year_fail (env : PPEnv) (y pstar : Nat)
    (hpre : ∀ p ∈ List.range' 1 (pstar - 1),
      is_site_up (env.http y p) = some true ∧ env.loadOk y p = true)
    (hfail : is_site_up (env.http y pstar) = some true ∧
      env.loadOk y pstar = false) :
    ∀ s fuel fs, 1 ≤ s → s ≤ pstar → pstar + 1 - s ≤ fuel →
      load_pp_year env y s fuel fs =
        (.error .loadFailed,
         (List.range' s (pstar - s)).flatMap (cycleEvents y) ++
           [.probe y pstar true, .fetch y pstar, .load y pstar false,
            .removeFile y pstar], fs) := by
  intro s fuel
  induction fuel generalizing s with
  | zero => intro fs h1 h2 h3; omega
  | succ n ih =>
    intro fs h1 h2 _
    rcases Nat.lt_or_ge s pstar with hlt | hge
    · have hmem : s ∈ List.range' 1 (pstar - 1) := by
        rw [List.mem_range'_1]
        exact ⟨h1, by omega⟩
      obtain ⟨hu, hl⟩ := hpre s hmem
      have hstep : load_pp_data_part_into_table env y s fs =
          (.ok true, cycleEvents y s, fs) := by
        unfold load_pp_data_part_into_table
        rw [hu]
        simp [hl, cycleEvents, erase_cons_self]
      have hrec := ih (s + 1) fs (by omega) (by omega) (by omega)
      unfold load_pp_year
      rw [hstep]
      simp only [hrec]
      have hrange : List.range' s (pstar - s) =
          s :: List.range' (s + 1) (pstar - (s + 1)) := by
        have : pstar - s = (pstar - (s + 1)) + 1 := by omega
        rw [this, List.range'_succ]
      rw [hrange]
      simp [cycleEvents]
    · have hs : s = pstar := by omega
      subst hs
      unfold load_pp_year
      have hstep : load_pp_data_part_into_table env y s fs =
          (.error .loadFailed,
           [.probe y s true, .fetch y s, .load y s false, .removeFile y s],
           fs) := by
        unfold load_pp_data_part_into_table
        rw [hfail.1]
        simp [hfail.2, erase_cons_self]
      rw [hstep]
      simp

theorem run_pp_years_fail (env : PPEnv) (P : Nat → Nat) (fuel ystar pstar : Nat)
    (hp : 1 ≤ pstar) (hfy : yearFailsAt env ystar pstar) (hfuel : pstar ≤ fuel) :
    ∀ ys1 ys2 fs, (∀ y ∈ ys1, yearSucceeds env y (P y) ∧ P y + 1 ≤ fuel) →
      run_pp_years env fuel (ys1 ++ ystar :: ys2) fs =
        (.error .loadFailed,
         ys1.flatMap (fun y => yearEvents y (P y)) ++ yearFailEvents ystar pstar,
         fs) := by
  intro ys1
  induction ys1 with
  | nil =>
    intro ys2 fs _
    have hyear := load_pp_year_fail env ystar pstar hfy.1 hfy.2 1 fuel fs
      (le_refl 1) hp (by omega)
    simp only [List.nil_append]
    unfold run_pp_years
    rw [hyear]
    simp [yearFailEvents]
  | cons y ys ih =>
    intro ys2 fs h
    obtain ⟨⟨hup, hdown⟩, hfuel2⟩ := h y (List.mem_cons_self y ys)
    have hyear := load_pp_year_spec env y (P y) hup hdown 1 fuel fs
      (le_refl 1) (by omega) (by omega)
    simp only [List.cons_append]
    unfold run_pp_years
    rw [hyear]
    dsimp only
    rw [ih ys2 fs (fun z hz => h z (List.mem_cons_of_mem y hz))]
    simp [yearEvents]

/-- C10: if the bulk load of part `pstar` of year `Ystar` raises, the
failure propagates out of the per-part step (after the local file was
deleted: the trace ends with `removeFile` and the filesystem is
unchanged) and out of the year/part driver loop, aborting the whole
multi-year run: the trace contains nothing for later parts of `Ystar` nor
for any later year. -/
theorem pp_load_failure_aborts_run (env : PPEnv) (P : Nat → Nat)
    (Ystar pstar fuel : Nat) (fs : FS)
    (hY1 : 1995 ≤ Ystar) (hY2 : Ystar ≤ 2021) (hp : 1 ≤ pstar)
    (hok : ∀ y ∈ List.range' 1995 (Ystar - 1995),
      yearSucceeds env y (P y) ∧ P y + 1 ≤ fuel)
    (hfail : yearFailsAt env Ystar pstar) (hfuel : pstar ≤ fuel) :
    load_pp_data_into_table env fuel fs =
      (.error .loadFailed,
       (List.range' 1995 (Ystar - 1995)).flatMap (fun y => yearEvents y (P y)) ++
         yearFailEvents Ystar pstar,
       fs) := by
  have hsplit : List.range' 1995 27 =
      List.range' 1995 (Ystar - 1995) ++
        Ystar :: List.range' (Ystar + 1) (26 - (Ystar - 1995)) := by
    have h1 : List.range' 1995 (Ystar - 1995) ++
        List.range' (1995 + (Ystar - 1995)) (26 - (Ystar - 1995) + 1) =
        List.range' 1995 ((26 - (Ystar - 1995) + 1) + (Ystar - 1995)) :=
      List.range'_append_1 1995 (Ystar - 1995) (26 - (Ystar - 1995) + 1)
    have h2 : 1995 + (Ystar - 1995) = Ystar := by omega
    have h3 : (26 - (Ystar - 1995) + 1) + (Ystar - 1995) = 27 := by omega
    rw [h2, h3] at h1
    rw [← h1, List.range'_succ]
  unfold load_pp_data_into_table
  rw [hsplit]
  exact run_pp_years_fail env P fuel Ystar pstar hp hfail hfuel
    (List.range' 1995 (Ystar - 1995)) (List.range' (Ystar + 1) (26 - (Ystar - 1995)))
    fs hok

/-- Witness for C10: year 1995 ingests its two parts, then year 1996's
part 2 load raises and the whole run stops there. -/
theorem pp_load_failure_aborts_run_witness :
    (∀ y ∈ List.range' 1995 1, yearSucceeds envFail1996 y 2 ∧ 2 + 1 ≤ 3) ∧
    yearFailsAt envFail1996 1996 2 ∧
    load_pp_data_into_table envFail1996 3 [] =
      (.error .loadFailed,
       (List.range' 1995 1).flatMap (fun y => yearEvents y 2) ++
         yearFailEvents 1996 2,
       []) :=
  ⟨by decide, by decide,
   pp_load_failure_aborts_run envFail1996 (fun _ => 2) 1996 2 3 []
     (by decide) (by decide) (by decide) (by decide) (by decide) (by decide)⟩

/-- C3: the prober answers `true` exactly for a response whose status is
the canonical 200 OK, answers `false` (without raising) for a "not found"
response, and lets a transport-level failure (DNS failure, timeout,
connection refused) propagate to the caller instead of returning
`false`. -/
theorem is_site_up_spec (code : Nat) :
    (is_site_up (.ok code) = some true ↔ code = 200) ∧
    is_site_up (.ok code) = some (code == 200) ∧
    is_site_up (.httpError 404) = some false ∧
    is_site_up .transportError = none := by
  refine ⟨?_, rfl, rfl, rfl⟩
  simp [is_site_up]

/-- C9: the prober returns `false` for every HTTP error status — urllib
raises `HTTPError` for 403, 500, 503 just as for 404, and `is_site_up`
catches them all — so an HTTP-level error response is indistinguishable
from absence and silently terminates part discovery for that year: the
per-part step returns `False` after the one probe, fetching and loading
nothing. -/
theorem prober_conflates_http_errors (code : Nat) (env : PPEnv)
    (y p : Nat) (fs : FS) (h : env.http y p = .httpError code) :
    is_site_up (.httpError code) = some false ∧
    load_pp_data_part_into_table env y p fs =
      (.ok false, [.probe y p false], fs) := by
  refine ⟨rfl, ?_⟩
  unfold load_pp_data_part_into_table
  rw [h]
  rfl

/-- Witness for C9: a host answering 503 everywhere ends discovery at
part 1 without an error. -/
theorem prober_conflates_http_errors_witness :
    envAll503.http 2001 1 = .httpError 503 ∧
    load_pp_data_part_into_table envAll503 2001 1 [] =
      (.ok false, [.probe 2001 1 false], []) :=
  ⟨rfl, (prober_conflates_http_errors 503 envAll503 2001 1 [] rfl).2⟩

/-- C2: cleanup on all exit paths. In the price-paid per-part cycle the
local working directory afterwards equals the directory before — the
downloaded part file is deleted again — whatever the probe answers and
whether the bulk load succeeds or raises. In the postcode flow the
downloaded archive and the expanded scratch directory are both gone
afterwards, whether the run completed, a load raised, or the extraction
itself raised. -/
theorem cleanup_on_all_paths (env : PPEnv) (y p : Nat) (fs : FS)
    (envP : PcEnv) :
    (load_pp_data_part_into_table env y p fs).2.2 = fs ∧
    (load_postcode_data_into_table envP).2.2.zipPresent = false ∧
    (load_postcode_data_into_table envP).2.2.scratch = none := by
  refine ⟨?_, ?_, ?_⟩
  · unfold load_pp_data_part_into_table
    rcases is_site_up (env.http y p) with _ | b
    · rfl
    · rcases b with _ | _
      · rfl
      · by_cases hl : env.loadOk y p <;> simp [hl, erase_cons_self]
  · unfold load_postcode_data_into_table pcFinally
    by_cases he : envP.extractOk <;> simp [he]
    rcases envP.scratchOnFail with _ | t <;> rfl
  · unfold load_postcode_data_into_table pcFinally
    by_cases he : envP.extractOk <;> simp [he]
    rcases envP.scratchOnFail with _ | t <;> rfl

theorem runPcLoads_ok (loadOk : String → Bool) :
    ∀ files, (∀ f ∈ files, loadOk f = true) →
      runPcLoads loadOk files =
        ((files.filter (fun f => endswith f "csv")).map
          (fun f => PcEvent.load f true), .ok ()) := by
  intro files
  induction files with
  | nil => intro _; rfl
  | cons f rest ih =>
    intro h
    have hf := h f (List.mem_cons_self f rest)
    have hrest := ih (fun g hg => h g (List.mem_cons_of_mem f hg))
    unfold runPcLoads
    by_cases hc : endswith f "csv" <;> simp [hc, hf, hrest]

/-- C7: with the archive expanded, the postcode flow loads exactly the
walked files whose names end in the `"csv"` suffix — the walk reaches
every nesting depth (descending into each directory's entries) — and a
file not matching the suffix is never loaded. -/
theorem postcode_csv_filter (env : PcEnv) (h1 : env.extractOk = true)
    (h2 : ∀ f ∈ walkFiles env.tree, env.loadOk f = true) :
    loadedFiles (load_postcode_data_into_table env) =
      (walkFiles env.tree).filter (fun f => endswith f "csv")
    ∧ (∀ f, f ∈ loadedFiles (load_postcode_data_into_table env) ↔
        f ∈ walkFiles env.tree ∧ endswith f "csv" = true)
    ∧ (∀ nm sub es, walkFiles (.dir nm sub :: es) =
        walkFiles sub ++ walkFiles es) := by
  have hkey : loadedFiles (load_postcode_data_into_table env) =
      (walkFiles env.tree).filter (fun f => endswith f "csv") := by
    unfold load_postcode_data_into_table
    rw [h1]
    simp only [if_pos]
    rw [runPcLoads_ok env.loadOk (walkFiles env.tree) h2]
    unfold loadedFiles pcFinally
    simp [List.filterMap_append, List.filterMap_map, Function.comp_def]
  refine ⟨hkey, ?_, ?_⟩
  · intro f
    rw [hkey, List.mem_filter]
  · intro nm sub es
    simp [walkFiles]

/-- Witness for C7: an archive holding `a.csv`, `deep/b.csv` and
`readme.txt` yields exactly the two CSV files. -/
theorem postcode_csv_filter_witness :
    pcEnvNested.extractOk = true ∧
    (∀ f ∈ walkFiles pcEnvNested.tree, pcEnvNested.loadOk f = true) ∧
    loadedFiles (load_postcode_data_into_table pcEnvNested) =
      ["a.csv", "b.csv"] :=
  ⟨rfl, by simp [walkFiles, pcEnvNested], by
    have h := (postcode_csv_filter pcEnvNested rfl
      (by simp [walkFiles, pcEnvNested])).1
    rw [h]
    simp [walkFiles, pcEnvNested]
    decide⟩

/-- C5: each schema remake unconditionally drops its table and recreates
it empty with exactly the declared columns (their nullability and the
auto-assigned surrogate primary key `db_id` included) and the declared
secondary indexes, whatever rows the table held before; running a remake
twice in a row yields the same empty schema as running it once. -/
theorem remake_tables_spec (db : DBState) :
    (remake_pp_data_table db).pp_data = some ppFreshTable ∧
    ppFreshTable.rows = [] ∧
    ppFreshTable.columns = ppColumns ∧
    ppFreshTable.indexes = ppIndexes ∧
    ppFreshTable.primaryKey = "db_id" ∧
    remake_pp_data_table (remake_pp_data_table db) =
      remake_pp_data_table db ∧
    (remake_postcode_data_table db).postcode_data = some postcodeFreshTable ∧
    postcodeFreshTable.rows = [] ∧
    postcodeFreshTable.columns = postcodeColumns ∧
    postcodeFreshTable.indexes = postcodeIndexes ∧
    postcodeFreshTable.primaryKey = "db_id" ∧
    remake_postcode_data_table (remake_postcode_data_table db) =
      remake_postcode_data_table db := by
  refine ⟨rfl, rfl, rfl, rfl, rfl, rfl, rfl, rfl, rfl, rfl, rfl, rfl⟩

/-- C6: a successful bulk load of a file with `N` well-formed rows into
the empty `pp_data` table brings the count to `N`, and loading the same
file a second time brings it to `2N`: the loader appends and never
deduplicates. -/
theorem bulk_load_appends (fileRows : List (List String)) (db : DBState)
    (t : TableState) (h1 : db.pp_data = some t) (h2 : t.rows = []) :
    ∃ db1 db2,
      insert_pp_csv_at_once fileRows db = .ok db1 ∧
      count_pp_data db1 = .ok fileRows.length ∧
      insert_pp_csv_at_once fileRows db1 = .ok db2 ∧
      count_pp_data db2 = .ok (2 * fileRows.length) := by
  refine ⟨{ db with pp_data := some { t with rows := t.rows ++ fileRows } },
    { db with pp_data := some { t with rows := (t.rows ++ fileRows) ++ fileRows } },
    ?_, ?_, ?_, ?_⟩
  · unfold insert_pp_csv_at_once
    rw [h1]
  · unfold count_pp_data count_table
    simp [h2]
  · unfold insert_pp_csv_at_once
    simp
  · unfold count_pp_data count_table
    simp [h2, two_mul]

/-- Witness for C6: loading a three-row file into the fresh `pp_data`
table counts 3, then 6. -/
theorem bulk_load_appends_witness :
    dbFreshPP.pp_data = some ppFreshTable ∧
    ppFreshTable.rows = [] ∧
    (∃ db1 db2,
      insert_pp_csv_at_once ppRows3 dbFreshPP = .ok db1 ∧
      count_pp_data db1 = .ok 3 ∧
      insert_pp_csv_at_once ppRows3 db1 = .ok db2 ∧
      count_pp_data db2 = .ok 6) :=
  ⟨rfl, rfl, bulk_load_appends ppRows3 dbFreshPP ppFreshTable rfl rfl⟩

/-- C4 is wrong about the code (code bug): when the first connection
attempt raises `ProgrammingError` because the logical database does not
exist, `make_cursor` does create the database exactly once, but the
`return self.make_cursor()` inside the generator ends it without
yielding, so contextlib raises `RuntimeError("generator didn't yield")`
in `__enter__`: the caller's body never runs, and no commit and no
second, usable connection happen. -/
theorem make_cursor_bootstrap_never_yields (commit_after : Bool) :
    make_cursor .programmingError commit_after =
      (.runtimeErrorNoYield, [.connect false, .createDb, .close]) ∧
    ConnEvent.body ∉ (make_cursor .programmingError commit_after).2 ∧
    ((make_cursor .programmingError commit_after).2).count .createDb = 1 ∧
    ConnEvent.commit ∉ (make_cursor .programmingError commit_after).2 := by
  refine ⟨rfl, ?_, rfl, ?_⟩ <;> simp [make_cursor]

/-- C8: every unit of work (a schema statement, a single file load, a
count query) opens its own connection as its first action and closes it
as its last, exactly once each, with a commit present exactly when the
caller did not suppress it; the count query and the `CREATE` half of a
remake suppress it, a file load commits; and any sequence of such units
(for instance the successive loads of the discovery loop) closes exactly
as many connections as it opens, so none survives an iteration. -/
theorem connection_per_unit_of_work :
    (∀ b, (make_cursor .ok b).1 = .cursor ∧
      ((make_cursor .ok b).2).head? = some (.connect true) ∧
      ((make_cursor .ok b).2).getLast? = some .close ∧
      ((make_cursor .ok b).2).count (.connect true) = 1 ∧
      ((make_cursor .ok b).2).count .close = 1 ∧
      (ConnEvent.commit ∈ (make_cursor .ok b).2 ↔ b = true)) ∧
    load_file_conn_trace = [.connect true, .body, .commit, .close] ∧
    count_conn_trace = [.connect true, .body, .close] ∧
    ConnEvent.commit ∉ count_conn_trace ∧
    remake_conn_trace =
      [.connect true, .body, .commit, .close,
       .connect true, .body, .close] ∧
    (∀ bs : List Bool,
      ((bs.map (fun b => (make_cursor .ok b).2)).flatten).count (.connect true) =
      ((bs.map (fun b => (make_cursor .ok b).2)).flatten).count .close) := by
  refine ⟨?_, rfl, rfl, by decide, rfl, ?_⟩
  · intro b
    rcases b with _ | _ <;> exact ⟨rfl, rfl, by decide, by decide, by decide, by decide⟩
  · intro bs
    induction bs with
    | nil => rfl
    | cons b rest ih =>
      simp only [List.map_cons, List.flatten_cons, List.count_append, ih]
      rcases b with _ | _ <;> rfl

end Fynesse
